import Mathlib

/-!
Verification development for the Outline VPN key-management bot
(`database.py`, `outline_api.py`, `key_manager.py`, `utils.py`,
`config.example.py`).

The Python modules are shallowly embedded: SQLite tables become lists of
rows, the per-actor conversational state (`user_states`) becomes an
`Option UserState` for the acting user, HTTP calls become explicitly
passed outcomes (`Except`/`Bool` parameters), and Python's dynamic
attribute dispatch on the `Database` object is reflected by the list of
method names that class actually defines (`databaseMethods`), so that a
call to a missing attribute is modelled as an `AttributeError` branch.
Machine integers are `Nat`/`Int`/`Rat`; byte counts never approach a
word-size boundary in the programs modelled here.
-/

/-! ## Configuration (`config.example.py`) -/

/-- `MAX_KEYS_PER_USER` from `config.example.py` (line 17). -/
def MAX_KEYS_PER_USER : Nat := 1

/-- `MAX_KEYS_PER_ADMIN` from `config.example.py` (line 18). -/
def MAX_KEYS_PER_ADMIN : Nat := 10

/-! ## Data model (tables created in `Database._init_db`) -/

/-- One row of the `users` table (`database.py`, `_init_db`).
`is_admin` / `is_blocked` are the `INTEGER DEFAULT 0` flags, modelled as
`Bool`. -/
structure UserRow where
  userId : Int
  username : Option String
  isAdminFlag : Bool
  isBlocked : Bool
  createdAt : Nat
  lastActivity : Nat
deriving DecidableEq

/-- One row of the `access_keys` table (`database.py`, `_init_db`).
`key_id` is the numeric id assigned by the Outline server (stored as TEXT
in SQLite; the reconciliation engine applies `int(...)` to it, so it is
modelled as `Nat`). `data_limit` and `paid_until` default to `0`. -/
structure KeyRow where
  keyId : Nat
  userId : Int
  name : String
  accessUrl : String
  dataLimit : Nat
  paidUntil : Int
  createdAt : Nat
deriving DecidableEq

/-- The SQLite database state: the `users` and `access_keys` tables, rows
in insertion order (the `activity_log` table is append-only audit data and
plays no role in the claims). -/
structure Db where
  users : List UserRow
  keys : List KeyRow
deriving DecidableEq

/-- A key as returned by the Outline server in `get_access_keys`:
`id`, optional `name`, `accessUrl`, and the optional `dataLimit.bytes`
annotation fetched per key. -/
structure RemoteKey where
  id : Nat
  name : Option String
  accessUrl : String
  dataLimit : Option Nat
deriving DecidableEq

namespace Database

/-- The method names the `Database` class actually defines
(`database.py`).  Python resolves `db.<name>` dynamically; a name outside
this list raises `AttributeError` at the call site. -/
def databaseMethods : List String :=
  ["save_user", "get_user", "set_admin_status", "block_user",
   "is_user_blocked", "is_admin", "log_activity", "save_access_key",
   "update_key_payment", "update_key_limit", "get_user_keys",
   "get_all_keys", "get_key_owner", "delete_key", "count_user_keys",
   "get_all_users", "sync_keys_with_server"]

/-- `Database.is_user_blocked` (`database.py` 229-246): fetch the row for
`user_id`, return its `is_blocked` flag, `False` when there is no row. -/
def is_user_blocked (db : Db) (userId : Int) : Bool :=
  match db.users.find? (fun u => u.userId = userId) with
  | some u => u.isBlocked
  | none => false

/-- `Database.is_admin` (`database.py` 248-269): `True` when `user_id` is
in `config.ADMIN_IDS`; otherwise the stored `is_admin` flag, `False` when
there is no row.  `adminIds` is the configured `ADMIN_IDS` list. -/
def is_admin (adminIds : List Int) (db : Db) (userId : Int) : Bool :=
  if userId ∈ adminIds then
    true
  else
    match db.users.find? (fun u => u.userId = userId) with
    | some u => u.isAdminFlag
    | none => false

/-- `Database.count_user_keys` (`database.py` 497-514):
`SELECT COUNT(*) FROM access_keys WHERE user_id = ?`. -/
def count_user_keys (db : Db) (userId : Int) : Nat :=
  (db.keys.filter (fun k => k.userId = userId)).length

/-- `Database.delete_key` (`database.py` 481-495):
`DELETE FROM access_keys WHERE key_id = ?`; returns `rowcount > 0`. -/
def delete_key (db : Db) (keyId : Nat) : Db × Bool :=
  let remaining := db.keys.filter (fun k => k.keyId ≠ keyId)
  ({ db with keys := remaining }, remaining.length < db.keys.length)

/-- `Database.update_key_payment` (`database.py` 355-373):
`UPDATE access_keys SET paid_until = ? WHERE key_id = ?`; returns
`rowcount > 0`. -/
def update_key_payment (db : Db) (keyId : Nat) (paidUntil : Int) : Db × Bool :=
  ({ db with
      keys := db.keys.map (fun k =>
        if k.keyId = keyId then { k with paidUntil := paidUntil } else k) },
   db.keys.any (fun k => k.keyId = keyId))

end Database

/-! ## Reconciliation engine (`Database.sync_keys_with_server`) -/

/-- The effective data limit of a server key (`database.py` 552-555):
`data_limit = 0`, overwritten by `key['dataLimit']['bytes']` when the
annotation is present. -/
def RemoteKey.effLimit (k : RemoteKey) : Nat :=
  match k.dataLimit with
  | some b => b
  | none => 0

/-- The display name the sync loop chooses (`database.py` 547-550): the
server name, unless it is missing, empty, or starts with `Temporary_`, in
which case a generated label from the key id. -/
def RemoteKey.syncName (k : RemoteKey) : String :=
  match k.name with
  | none => "Ключ_" ++ toString k.id
  | some n =>
      if n = "" ∨ n.startsWith ("Temporary_") then "Ключ_" ++ toString k.id
      else n

/-- The `db_keys` dictionary snapshot (`database.py` 541-542):
`{row['key_id']: row['data_limit'] for row in ...}` — one entry per key
id, a later row overwriting an earlier one. -/
def dbKeysDict : List KeyRow → Nat → Option Nat
  | [], _ => none
  | r :: rs, kid =>
      match dbKeysDict rs kid with
      | some v => some v
      | none => if r.keyId = kid then some r.dataLimit else none

/-- The `UPDATE access_keys SET data_limit = ? WHERE key_id = ?`
statement (`database.py` 596-600), as a row transformer. -/
def setLimitRow (kid : Nat) (v : Nat) (r : KeyRow) : KeyRow :=
  if r.keyId = kid then { r with dataLimit := v } else r

namespace Database

/-- The body of the `for key in server_keys` loop in
`Database.sync_keys_with_server` (`database.py` 545-603), for one server
key, against the `db_keys` snapshot taken before the loop: a key id
missing from the snapshot gets a placeholder user (id `-int(key_id)`,
`INSERT OR IGNORE`) and a fresh `access_keys` row; a key id present in
the snapshot gets its `data_limit` overwritten whenever the snapshot
value differs from the server value. -/
def syncStep (snapshot : Nat → Option Nat) (t : Nat) (db : Db)
    (k : RemoteKey) : Db :=
  match snapshot k.id with
  | none =>
      { users :=
          if db.users.any (fun u => u.userId = -(k.id : Int)) then db.users
          else db.users ++ [⟨-(k.id : Int), some k.syncName, false, false, t, t⟩],
        keys := db.keys ++
          [⟨k.id, -(k.id : Int), k.syncName, k.accessUrl, k.effLimit, 0, t⟩] }
  | some dbLimit =>
      if dbLimit ≠ k.effLimit then
        { db with keys := db.keys.map (setLimitRow k.id k.effLimit) }
      else db

/-- `Database.sync_keys_with_server` (`database.py` 530-608), given a
successful `get_access_keys` listing `server_keys` and the wall-clock
second `t` (`int(time.time())`, constant across one pass).  A failed
listing aborts the pass with the database untouched and is not modelled
further. -/
def sync_keys_with_server (db : Db) (server_keys : List RemoteKey)
    (t : Nat) : Db :=
  server_keys.foldl (syncStep (dbKeysDict db.keys) t) db

end Database

/-! ## Remote client (`outline_api.py`) -/

namespace OutlineAPI

/-- The outcome of one remote read from the caller's point of view:
either the underlying `_request` raised, or it produced a value. -/
inductive ReadOutcome (α : Type)
  | raised
  | ok (val : α)
deriving DecidableEq

/-- The request `OutlineAPI.set_data_limit` issues (`outline_api.py`
162-177): a `PUT .../data-limit` with a byte count when the requested
limit is positive, otherwise a `DELETE .../data-limit`. -/
inductive LimitRequest
  | putLimit (bytes : Int)
  | deleteLimit
deriving DecidableEq

/-- The remote server's behaviour during one `set_data_limit` call:
whether the issued PUT/DELETE succeeds (`False` = `_request` raises), and
the outcome of the verification re-read `get_access_key` — `raised` when
that read raises, otherwise the key's optional `dataLimit.bytes` field. -/
structure SetLimitEnv where
  requestOk : Bool
  readResult : ReadOutcome (Option Int)
deriving DecidableEq

/-- `OutlineAPI.set_data_limit` (`outline_api.py` 148-207).  Returns the
request that was issued together with the boolean the method returns:
`False` when the PUT/DELETE raises; after a successful mutation, the
verification read is attempted — a missing or mismatching `dataLimit`
(resp. a still-present one when clearing) yields `False`, but a
verification read that itself raises is only logged and the method
returns `True`. -/
def set_data_limit (limit_bytes : Int) (env : SetLimitEnv) :
    LimitRequest × Bool :=
  let req : LimitRequest :=
    if 0 < limit_bytes then .putLimit limit_bytes else .deleteLimit
  if env.requestOk = false then
    (req, false)
  else
    match env.readResult with
    | .raised => (req, true)
    | .ok dl =>
        if 0 < limit_bytes then
          match dl with
          | none => (req, false)
          | some actual => if actual ≠ limit_bytes then (req, false) else (req, true)
        else
          match dl with
          | some _ => (req, false)
          | none => (req, true)

/-- The inline usage fields of a single key record (`outline_api.py`
300-308): a top-level `usageBytes`, or a nested `usage.bytes`. -/
structure KeyUsageInfo where
  usageBytes : Option Nat
  usageNestedBytes : Option Nat
deriving DecidableEq

/-- The data sources `OutlineAPI.get_key_data_usage` can draw on, as the
usage-probe sees them.  `transferByUser` / `metricsByUser` are the
`bytesTransferredByUserId` maps of `/metrics/transfer` and `/metrics`
(`none` when the request failed — both helpers swallow errors and return
`{}` — or the field is absent).  `keyInfo` is the outcome of the direct
`get_access_key` read, which can raise. -/
structure UsageSources where
  transferByUser : Option (List (Nat × Nat))
  metricsByUser : Option (List (Nat × Nat))
  keyInfo : ReadOutcome KeyUsageInfo
deriving DecidableEq

/-- Lookup of `str(key_id)` in a `bytesTransferredByUserId` map. -/
def lookupUsage (m : List (Nat × Nat)) (keyId : Nat) : Option Nat :=
  match m.find? (fun p => p.1 = keyId) with
  | some p => some p.2
  | none => none

/-- `OutlineAPI.get_key_data_usage` (`outline_api.py` 242-314): probe
`/metrics/transfer`, then `/metrics`, then the key's own inline usage
fields; the first source holding a value for `key_id` wins; `0` when none
does.  Every probe is wrapped in `try/except`, so the function always
returns a number. -/
def get_key_data_usage (keyId : Nat) (src : UsageSources) : Nat :=
  match (match src.transferByUser with
         | some m => lookupUsage m keyId
         | none => none) with
  | some v => v
  | none =>
    match (match src.metricsByUser with
           | some m => lookupUsage m keyId
           | none => none) with
    | some v => v
    | none =>
      match src.keyInfo with
      | .raised => 0
      | .ok info =>
          match info.usageBytes with
          | some v => v
          | none =>
              match info.usageNestedBytes with
              | some v => v
              | none => 0

end OutlineAPI

/-! ## Numeric helpers (`utils.py`, and inline conversions in
`key_manager.py`) -/

/-- Python's `int(...)` applied to an exact numeric value: truncation
toward zero. -/
def pyInt (q : Rat) : Int :=
  Int.tdiv q.num (q.den : Int)

/-- `gb_to_bytes` (`utils.py` 88-98): `int(gb * 1024 * 1024 * 1024)` —
the binary convention. -/
def gb_to_bytes (gb : Rat) : Int :=
  pyInt (gb * 1024 * 1024 * 1024)

/-- The result of a successful `float(message.text.strip())`: a CPython
float is an IEEE-754 binary64 value — NaN, one of the two infinities, or
a finite value, carried here as its exact rational value (every finite
double is a rational; the model quantifies over all of `Rat`, a superset
of the representable ones). -/
inductive PyFloat
  | nan
  | inf
  | ninf
  | finite (val : Rat)
deriving DecidableEq

/-- The overflow boundary of binary64 round-to-nearest-even: a positive
exact product at or above `2^1024 - 2^970` rounds to `+inf`, and
`int(inf)` then raises `OverflowError`. -/
def floatOverflowThreshold : Rat := 2 ^ 1024 - 2 ^ 970

/-! ## Calendar dates (`process_date_input`'s use of
`datetime.datetime`) -/

/-- Gregorian leap year, as `datetime.datetime` validates it. -/
def isLeapYear (y : Int) : Bool :=
  y % 4 = 0 ∧ (y % 100 ≠ 0 ∨ y % 400 = 0)

/-- Days in a month of a given year. -/
def daysInMonth (y m : Int) : Int :=
  if m = 2 then (if isLeapYear y then 29 else 28)
  else if m = 4 ∨ m = 6 ∨ m = 9 ∨ m = 11 then 30
  else 31

/-- Whether `datetime.datetime(year, month, day)` succeeds: year in
`1..9999`, month in `1..12`, day in range for the month. -/
def isValidDate (y m d : Int) : Bool :=
  1 ≤ y ∧ y ≤ 9999 ∧ 1 ≤ m ∧ m ≤ 12 ∧ 1 ≤ d ∧ d ≤ daysInMonth y m

/-- Days from 1970-01-01 to the civil date `y-m-d` (valid dates only,
so `1 ≤ y`; the standard days-from-civil computation). -/
def daysFromCivil (y m d : Nat) : Int :=
  let y' := if m ≤ 2 then y - 1 else y
  let era := y' / 400
  let yoe := y' % 400
  let mp := if 2 < m then m - 3 else m + 9
  let doy := (153 * mp + 2) / 5 + (d - 1)
  let doe := yoe * 365 + yoe / 4 - yoe / 100 + doy
  ((era * 146097 + doe : Nat) : Int) - 719468

/-- `int(datetime.datetime(year, month, day).timestamp())`: the epoch
second of that date's midnight (modelled in UTC). -/
def dateTimestamp (y m d : Int) : Int :=
  86400 * daysFromCivil y.toNat m.toNat d.toNat

/-! ## Conversational state machine and handlers (`key_manager.py`) -/

/-- The `state` discriminator of a `user_states` entry, together with the
`key_id` context stored for the two admin flows. -/
inductive FlowKind
  | waiting_for_key_name
  | waiting_for_limit (keyId : Nat)
  | waiting_for_date (keyId : Nat)
deriving DecidableEq

/-- One `user_states[user_id]` entry: the pending flow plus the anchor
message being replaced (`chat_id`, `message_id`). -/
structure UserState where
  flow : FlowKind
  chatId : Nat
  messageId : Nat
deriving DecidableEq

namespace KeyManager

/-- `get_key_by_id` (`key_manager.py` 201-224): the first `access_keys`
row with the given `key_id` (join columns dropped — they only feed
display). -/
def get_key_by_id (db : Db) (keyId : Nat) : Option KeyRow :=
  db.keys.find? (fun k => k.keyId = keyId)

/-- Outcome of the `create_key` button callback. -/
inductive CreateOutcome
  | blockedRefused
  | quotaRefused
  | promptName
deriving DecidableEq

/-- `create_key_callback` (`key_manager.py` 429-472): refuse blocked
users; refuse when `count_user_keys` has reached `MAX_KEYS_PER_ADMIN`
(admins) or `MAX_KEYS_PER_USER` (others); otherwise prompt for a key name
and store a `waiting_for_key_name` flow for the actor. -/
def create_key_callback (adminIds : List Int) (db : Db) (userId : Int)
    (st : Option UserState) (chatId messageId : Nat) :
    Option UserState × CreateOutcome :=
  if Database.is_user_blocked db userId then
    (st, .blockedRefused)
  else
    let isAdminFlag := Database.is_admin adminIds db userId
    let maxKeys := if isAdminFlag then MAX_KEYS_PER_ADMIN else MAX_KEYS_PER_USER
    if maxKeys ≤ Database.count_user_keys db userId then
      (st, .quotaRefused)
    else
      (some ⟨.waiting_for_key_name, chatId, messageId⟩, .promptName)

/-- Outcome of the `delete_` button callback. -/
inductive DeleteOutcome
  | keyNotFound
  | notAdmin
  | keyDeleted
  | errorAnswered
deriving DecidableEq

/-- `delete_key_callback` (`key_manager.py` 757-811).  After the
ownership / admin check it runs, inside `try`:
`outline.delete_access_key(key_id)` — which never raises and whose
boolean result (`remoteDeleteOk`) is ignored — and then
`db.delete_access_key(key_id)`.  `Database` defines no attribute
`delete_access_key` (see `Database.databaseMethods`; the class defines
`delete_key`), so that call raises `AttributeError`, the `except` branch
answers with an error message, and the local row is left in place.  The
`then` branch spells out what the callback would do if the attribute
existed, using `Database.delete_key`'s semantics. -/
def delete_key_callback (adminIds : List Int) (db : Db) (userId : Int)
    (keyId : Nat) (_remoteDeleteOk : Bool) : Db × DeleteOutcome :=
  match get_key_by_id db keyId with
  | none => (db, .keyNotFound)
  | some key =>
      let isAdminFlag := Database.is_admin adminIds db userId
      let isOwner := key.userId = userId
      if ¬ isOwner ∧ ¬ isAdminFlag then (db, .notAdmin)
      else
        if Database.databaseMethods.contains ("delete_access_key") then
          ((Database.delete_key db keyId).1, .keyDeleted)
        else
          (db, .errorAnswered)

/-- Outcome of the traffic-limit input handler, carrying the remote
request issued via `set_data_limit` when one was issued.
`overflowError` is the uncaught `OverflowError` from `int(inf)` escaping
the handler. -/
inductive LimitOutcome
  | notInFlow
  | invalidInput
  | overflowError
  | limitSet (req : OutlineAPI.LimitRequest)
  | setFailed (req : OutlineAPI.LimitRequest)
deriving DecidableEq

/-- `process_limit_input` (`key_manager.py` 816-933), for the acting
user.  `input` is the result of `float(message.text.strip())` — `none`
when that raises `ValueError`.  The handler's branches, traced on
CPython semantics:
a parse failure, and a value with `limit_gb <= 0` true (finite
non-positive or `-inf`), raise `ValueError`, which the `except
ValueError` branch turns into an `invalid_limit` message and a `return`
with `user_states` untouched; `NaN` passes the `<= 0` test (false),
makes `limit_gb * 1000000000` NaN, and `int(NaN)` raises `ValueError` —
also caught, state untouched; `+inf`, and a finite positive value whose
product with `10^9` reaches the binary64 overflow boundary, make the
product `+inf`, and `int(inf)` raises `OverflowError`, which nothing
catches, so the handler dies with `user_states` untouched.  Otherwise
`limit_bytes = int(limit_gb * 1000000000)` (modelled as the exact
truncated product; exact for float-representable products such as
`5 * 10^9`) is sent to `outline.set_data_limit`, a success or failure
message is sent, and the actor's `user_states` entry is deleted either
way. -/
def process_limit_input (st : Option UserState) (input : Option PyFloat)
    (env : OutlineAPI.SetLimitEnv) : Option UserState × LimitOutcome :=
  match st with
  | some s =>
      match s.flow with
      | .waiting_for_limit _keyId =>
          match input with
          | none => (st, .invalidInput)
          | some .nan => (st, .invalidInput)
          | some .ninf => (st, .invalidInput)
          | some .inf => (st, .overflowError)
          | some (.finite limit_gb) =>
              if limit_gb ≤ 0 then (st, .invalidInput)
              else if floatOverflowThreshold ≤ limit_gb * 1000000000 then
                (st, .overflowError)
              else
                let limit_bytes := pyInt (limit_gb * 1000000000)
                let result := OutlineAPI.set_data_limit limit_bytes env
                if result.2 then (none, .limitSet result.1)
                else (none, .setFailed result.1)
      | _ => (st, .notInFlow)
  | none => (none, .notInFlow)

/-- Outcome of the payment-date input handler. -/
inductive DateOutcome
  | notInFlow
  | invalidDate
  | dateInPast
  | attributeError
  | paidUntilSet (timestamp : Int)
deriving DecidableEq

/-- `process_date_input` (`key_manager.py` 938-1058), for the acting
user.  `input` is the result of
`day, month, year = map(int, message.text.strip().split('.'))` — `none`
when that raises `ValueError`.  An invalid calendar literal lands in the
`except ValueError` branch (message, `return`, state kept); a date before
`now` sends `date_in_past` and `return`s (state kept).  A valid future
date reaches `db.update_paid_until(key_id, timestamp)`; `Database`
defines no attribute `update_paid_until`
(see `Database.databaseMethods`; the class defines `update_key_payment`),
so `AttributeError` is raised and — the `except` clause only catches
`ValueError` — escapes the handler before `del user_states[user_id]`
runs.  The `then` branch spells out the behaviour the attribute's
existence would give, via `Database.update_key_payment`. -/
def process_date_input (st : Option UserState)
    (input : Option (Int × Int × Int)) (now : Int) (db : Db) :
    Option UserState × Db × DateOutcome :=
  match st with
  | some s =>
      match s.flow with
      | .waiting_for_date keyId =>
          match input with
          | none => (st, db, .invalidDate)
          | some (day, month, year) =>
              if ¬ isValidDate year month day then (st, db, .invalidDate)
              else
                let timestamp := dateTimestamp year month day
                if timestamp < now then (st, db, .dateInPast)
                else
                  if Database.databaseMethods.contains ("update_paid_until") then
                    (none, (Database.update_key_payment db keyId timestamp).1,
                     .paidUntilSet timestamp)
                  else
                    (st, db, .attributeError)
      | _ => (st, db, .notInFlow)
  | none => (none, db, .notInFlow)

end KeyManager

/-- The usage probe as the spec words it, for comparison with the code's
`OutlineAPI.get_key_data_usage`: three degrading sources probed in a
fixed order — aggregate-by-key transfer report, legacy aggregate report,
per-key inline usage fields — the first that yields a value for the id
wins, and `0` when none does. -/
def specUsageFirstYield (keyId : Nat) (src : OutlineAPI.UsageSources) : Nat :=
  (((src.transferByUser.bind (fun m => OutlineAPI.lookupUsage m keyId)).orElse
      (fun _ => src.metricsByUser.bind (fun m => OutlineAPI.lookupUsage m keyId))).orElse
      (fun _ =>
        match src.keyInfo with
        | .raised => none
        | .ok info => info.usageBytes.orElse (fun _ => info.usageNestedBytes))).getD 0

/-! ## Lemmas about the reconciliation pass -/

theorem dbKeysDict_append (rows : List KeyRow) (r : KeyRow) (kid : Nat) :
    dbKeysDict (rows ++ [r]) kid =
      if r.keyId = kid then some r.dataLimit else dbKeysDict rows kid := by
  induction rows with
  | nil =>
      by_cases h : r.keyId = kid <;> simp [dbKeysDict, h]
  | cons a tl ih =>
      by_cases h : r.keyId = kid
      · simp [dbKeysDict, ih, h]
      · simp only [List.cons_append, dbKeysDict, List.append_eq, ih, if_neg h]

theorem dbKeysDict_map_set (rows : List KeyRow) (kid : Nat) (v : Nat) :
    dbKeysDict (rows.map (setLimitRow kid v)) kid =
      (dbKeysDict rows kid).map (fun _ => v) := by
  induction rows with
  | nil => simp [dbKeysDict]
  | cons a tl ih =>
      by_cases h : a.keyId = kid
      · simp only [List.map_cons, dbKeysDict, ih, setLimitRow, if_pos h]
        cases dbKeysDict tl kid <;> simp [h]
      · simp only [List.map_cons, dbKeysDict, ih, setLimitRow, if_neg h]
        cases dbKeysDict tl kid <;> simp [h]

theorem dbKeysDict_map_set_ne (rows : List KeyRow) (kid kid' : Nat) (v : Nat)
    (h : kid' ≠ kid) :
    dbKeysDict (rows.map (setLimitRow kid v)) kid' = dbKeysDict rows kid' := by
  induction rows with
  | nil => simp [dbKeysDict]
  | cons a tl ih =>
      by_cases ha : a.keyId = kid
      · have ha' : a.keyId ≠ kid' := fun hc => h (by rw [← hc, ha])
        have hkk : ¬(kid = kid') := by rw [← ha]; exact ha'
        simp only [List.map_cons, dbKeysDict, ih, setLimitRow, if_pos ha]
        cases dbKeysDict tl kid' <;> simp [ha, ha', hkk]
      · simp only [List.map_cons, dbKeysDict, ih, setLimitRow, if_neg ha]

theorem syncStep_keys_other (snap : Nat → Option Nat) (t : Nat) (db : Db)
    (k : RemoteKey) (kid : Nat) (h : k.id ≠ kid) :
    dbKeysDict (Database.syncStep snap t db k).keys kid
      = dbKeysDict db.keys kid := by
  unfold Database.syncStep
  cases hsnap : snap k.id with
  | none =>
      simp only [hsnap, dbKeysDict_append, if_neg h]
  | some dbLimit =>
      by_cases hne : dbLimit ≠ k.effLimit
      · simp only [hsnap, if_pos hne]
        exact dbKeysDict_map_set_ne _ _ _ _ (fun hc => h hc.symm)
      · simp only [hsnap, if_neg hne]

theorem syncStep_keys_establish (snap : Nat → Option Nat) (t : Nat) (db : Db)
    (k : RemoteKey) (hagree : dbKeysDict db.keys k.id = snap k.id) :
    dbKeysDict (Database.syncStep snap t db k).keys k.id
      = some k.effLimit := by
  unfold Database.syncStep
  cases hsnap : snap k.id with
  | none =>
      simp [hsnap, dbKeysDict_append]
  | some dbLimit =>
      by_cases hne : dbLimit ≠ k.effLimit
      · simp only [hsnap, if_pos hne, dbKeysDict_map_set]
        rw [hagree, hsnap]
        rfl
      · push_neg at hne
        simp only [hsnap, ite_not, if_pos hne]
        rw [hagree, hsnap, hne]

theorem foldl_sync_keys_other (snap : Nat → Option Nat) (t : Nat)
    (l : List RemoteKey) (db : Db) (kid : Nat)
    (h : ∀ k ∈ l, k.id ≠ kid) :
    dbKeysDict (l.foldl (Database.syncStep snap t) db).keys kid
      = dbKeysDict db.keys kid := by
  induction l generalizing db with
  | nil => rfl
  | cons k rest ih =>
      rw [List.foldl_cons,
        ih (Database.syncStep snap t db k) (fun k' hk' => h k' (by simp [hk'])),
        syncStep_keys_other snap t db k kid (h k (by simp))]

theorem foldl_sync_keys_establish (snap : Nat → Option Nat) (t : Nat)
    (l : List RemoteKey) (db : Db)
    (hids : (l.map RemoteKey.id).Nodup)
    (hagree : ∀ k ∈ l, dbKeysDict db.keys k.id = snap k.id) :
    ∀ k ∈ l,
      dbKeysDict (l.foldl (Database.syncStep snap t) db).keys k.id
        = some k.effLimit := by
  induction l generalizing db with
  | nil => intro k hk; exact absurd hk (List.not_mem_nil k)
  | cons k0 rest ih =>
      have hhead : k0.id ∉ rest.map RemoteKey.id := by
        have := hids
        simp only [List.map_cons, List.nodup_cons] at this
        exact this.1
      have htail : (rest.map RemoteKey.id).Nodup := by
        have := hids
        simp only [List.map_cons, List.nodup_cons] at this
        exact this.2
      intro k hk
      rw [List.foldl_cons]
      rcases List.mem_cons.mp hk with hk0 | hkrest
      · subst hk0
        rw [foldl_sync_keys_other snap t rest (Database.syncStep snap t db k) k.id
            (fun k' hk' => by
              intro hc
              exact hhead (hc ▸ List.mem_map_of_mem RemoteKey.id hk')),
          syncStep_keys_establish snap t db k (hagree k (by simp))]
      · exact ih (Database.syncStep snap t db k0) htail
          (fun k' hk' => by
            rw [syncStep_keys_other snap t db k0 k'.id
              (fun hc => hhead (hc ▸ List.mem_map_of_mem RemoteKey.id hk'))]
            exact hagree k' (List.mem_cons_of_mem k0 hk'))
          k hkrest

theorem syncStep_noop (snap : Nat → Option Nat) (t : Nat) (db : Db)
    (k : RemoteKey) (h : snap k.id = some k.effLimit) :
    Database.syncStep snap t db k = db := by
  unfold Database.syncStep
  simp [h]

theorem setLimitRow_keyId (kid v : Nat) (r : KeyRow) :
    (setLimitRow kid v r).keyId = r.keyId := by
  unfold setLimitRow
  split <;> rfl

theorem setLimitRow_userId (kid v : Nat) (r : KeyRow) :
    (setLimitRow kid v r).userId = r.userId := by
  unfold setLimitRow
  split <;> rfl

/-- Provenance of a row after a reconciliation pass: it either shares key
id and owner with a pre-existing row, or it was inserted by the pass with
the placeholder owner `-key_id`. -/
theorem foldl_sync_userId_origin (snap : Nat → Option Nat) (t : Nat)
    (l : List RemoteKey) (db : Db) (row : KeyRow)
    (hrow : row ∈ (l.foldl (Database.syncStep snap t) db).keys) :
    (∃ row₀ ∈ db.keys, row.keyId = row₀.keyId ∧ row.userId = row₀.userId)
      ∨ row.userId = -(row.keyId : Int) := by
  induction l generalizing db with
  | nil => exact Or.inl ⟨row, hrow, rfl, rfl⟩
  | cons k rest ih =>
      rw [List.foldl_cons] at hrow
      rcases ih (Database.syncStep snap t db k) hrow with ⟨r₁, hr₁, hkeq, hueq⟩ | hdirect
      · clear hrow
        unfold Database.syncStep at hr₁
        revert hr₁
        cases hsnap : snap k.id with
        | none =>
            intro hr₁
            simp only [List.mem_append, List.mem_singleton] at hr₁
            rcases hr₁ with hold | hnew
            · exact Or.inl ⟨r₁, hold, hkeq, hueq⟩
            · subst hnew
              exact Or.inr (by rw [hueq, hkeq])
        | some dbLimit =>
            by_cases hne : dbLimit ≠ k.effLimit
            · intro hr₁
              simp only [if_pos hne, List.mem_map] at hr₁
              rcases hr₁ with ⟨r₀, hr₀, hset⟩
              refine Or.inl ⟨r₀, hr₀, ?_, ?_⟩
              · rw [hkeq, ← hset, setLimitRow_keyId]
              · rw [hueq, ← hset, setLimitRow_userId]
            · intro hr₁
              simp only [if_neg hne] at hr₁
              exact Or.inl ⟨r₁, hr₁, hkeq, hueq⟩
      · exact Or.inr hdirect

theorem foldl_sync_noop (snap : Nat → Option Nat) (t : Nat)
    (l : List RemoteKey) (db : Db)
    (h : ∀ k ∈ l, snap k.id = some k.effLimit) :
    l.foldl (Database.syncStep snap t) db = db := by
  induction l generalizing db with
  | nil => rfl
  | cons k rest ih =>
      rw [List.foldl_cons, syncStep_noop snap t db k (h k (by simp)),
        ih db (fun k' hk' => h k' (List.mem_cons_of_mem k hk'))]

/-! ## Claim C6 — placeholder actor identities -/

/-- Claim C6, counterexample: a remote key with numeric id `0` and no
local record is synthesized with placeholder identity `-0 = 0`, which is
not strictly negative — refuting "the synthesized placeholder actor
identity is strictly negative ... for any key id magnitude". -/
theorem c6_key_zero_placeholder_not_negative :
    ∃ row ∈ (Database.sync_keys_with_server ⟨[], []⟩
        [⟨0, none, "u", none⟩] 0).keys,
      ¬ (row.userId < 0) := by
  decide

/-- Claim C6 (amended): every key row a reconciliation pass produces for
a key id with no pre-existing local row carries the placeholder identity
`-key_id`; that identity is nonpositive — hence never equal to any real
(positive) actor identity — and it is strictly negative whenever the key
id is nonzero (for key id `0` it is `0`, still distinct from every real
identity). -/
theorem c6_placeholder_isolation_amended (server_keys : List RemoteKey)
    (db : Db) (t : Nat) (row : KeyRow)
    (hrow : row ∈ (Database.sync_keys_with_server db server_keys t).keys)
    (hnew : row.keyId ∉ db.keys.map KeyRow.keyId) :
    row.userId = -(row.keyId : Int) ∧ row.userId ≤ 0 ∧
      (0 < row.keyId → row.userId < 0) ∧
      ∀ a : Int, 0 < a → row.userId ≠ a := by
  rcases foldl_sync_userId_origin (dbKeysDict db.keys) t server_keys db row hrow with
    ⟨row₀, h₀, hkeq, _⟩ | heq
  · exact absurd (hkeq ▸ List.mem_map_of_mem KeyRow.keyId h₀) hnew
  · refine ⟨heq, ?_, ?_, ?_⟩ <;> rw [heq]
    · omega
    · omega
    · omega

/-- Witness for C6's amended theorem: the single remote key `5` inserted
into an empty store gets owner `-5`, which is nonpositive, negative, and
distinct from the real actor identity `7`. -/
theorem c6_placeholder_isolation_amended_witness :
    (⟨5, -5, "Ключ_5", "u", 3, 0, 0⟩ : KeyRow).userId
        = -((⟨5, -5, "Ключ_5", "u", 3, 0, 0⟩ : KeyRow).keyId : Int) ∧
      (⟨5, -5, "Ключ_5", "u", 3, 0, 0⟩ : KeyRow).userId ≤ 0 ∧
      (0 < (⟨5, -5, "Ключ_5", "u", 3, 0, 0⟩ : KeyRow).keyId →
        (⟨5, -5, "Ключ_5", "u", 3, 0, 0⟩ : KeyRow).userId < 0) ∧
      ∀ a : Int, 0 < a → (⟨5, -5, "Ключ_5", "u", 3, 0, 0⟩ : KeyRow).userId ≠ a :=
  c6_placeholder_isolation_amended [⟨5, none, "u", some 3⟩] ⟨[], []⟩ 0
    ⟨5, -5, "Ключ_5", "u", 3, 0, 0⟩ (by decide) (by decide)

/-! ## Claim C7 — idempotence of reconciliation -/

/-- Claim C7, counterexample: a remote listing that mentions the same key
id twice with different traffic caps makes a second pass change the
store again — the first pass inserts two rows with caps `10` and `20`,
the second overwrites both to `10` — refuting "for every remote listing
and every local store state" as stated. -/
theorem c7_duplicate_listing_not_idempotent :
    Database.sync_keys_with_server
        (Database.sync_keys_with_server ⟨[], []⟩
          [⟨5, some "a", "u", some 10⟩, ⟨5, some "a", "u", some 20⟩] 0)
        [⟨5, some "a", "u", some 10⟩, ⟨5, some "a", "u", some 20⟩] 0
      ≠ Database.sync_keys_with_server ⟨[], []⟩
          [⟨5, some "a", "u", some 10⟩, ⟨5, some "a", "u", some 20⟩] 0 := by
  decide

/-- Claim C7 (amended): for every remote listing whose key ids are
pairwise distinct — which is what the remote server produces — and every
local store state, a second reconciliation pass with the listing
unchanged leaves the store snapshot identical, whatever wall-clock
instants the two passes run at. -/
theorem c7_sync_idempotent_amended (server_keys : List RemoteKey) (db : Db)
    (t₁ t₂ : Nat) (hids : (server_keys.map RemoteKey.id).Nodup) :
    Database.sync_keys_with_server
        (Database.sync_keys_with_server db server_keys t₁) server_keys t₂
      = Database.sync_keys_with_server db server_keys t₁ := by
  unfold Database.sync_keys_with_server
  exact foldl_sync_noop _ t₂ server_keys _
    (foldl_sync_keys_establish (dbKeysDict db.keys) t₁ server_keys db hids
      (fun _ _ => rfl))

/-- Witness for C7's amended theorem: a two-key listing with distinct ids
over a store that already holds key `5` with a drifted cap. -/
theorem c7_sync_idempotent_amended_witness :
    Database.sync_keys_with_server
        (Database.sync_keys_with_server
          ⟨[⟨1, some "bob", false, false, 0, 0⟩],
           [⟨5, 1, "k5", "u5", 7, 0, 0⟩]⟩
          [⟨5, some "a", "u", some 10⟩, ⟨6, none, "v", none⟩] 1)
        [⟨5, some "a", "u", some 10⟩, ⟨6, none, "v", none⟩] 2
      = Database.sync_keys_with_server
          ⟨[⟨1, some "bob", false, false, 0, 0⟩],
           [⟨5, 1, "k5", "u5", 7, 0, 0⟩]⟩
          [⟨5, some "a", "u", some 10⟩, ⟨6, none, "v", none⟩] 1 :=
  c7_sync_idempotent_amended
    [⟨5, some "a", "u", some 10⟩, ⟨6, none, "v", none⟩]
    ⟨[⟨1, some "bob", false, false, 0, 0⟩], [⟨5, 1, "k5", "u5", 7, 0, 0⟩]⟩
    1 2 (by decide)

/-! ## Claim C1 — delete flow -/

/-- Claim C1: the delete flow is meant to remove the local row regardless
of the remote delete's outcome, but `delete_key_callback` calls
`db.delete_access_key(key_id)` while `Database` only defines
`delete_key`, so the call raises `AttributeError`, the callback's
`except` branch answers with an error, and the local row survives: with
actor `1` owning key `7` and the remote delete failing, the callback
leaves the store unchanged and `get_key_by_id` still finds the row. -/
theorem c1_delete_key_local_row_survives :
    Database.databaseMethods.contains ("delete_access_key") = false ∧
    Database.databaseMethods.contains ("delete_key") = true ∧
    KeyManager.delete_key_callback []
        ⟨[⟨1, none, false, false, 0, 0⟩], [⟨7, 1, "home", "ss-u", 0, 0, 0⟩]⟩
        1 7 false
      = (⟨[⟨1, none, false, false, 0, 0⟩], [⟨7, 1, "home", "ss-u", 0, 0, 0⟩]⟩,
         .errorAnswered) ∧
    KeyManager.get_key_by_id
        ⟨[⟨1, none, false, false, 0, 0⟩], [⟨7, 1, "home", "ss-u", 0, 0, 0⟩]⟩ 7
      = some ⟨7, 1, "home", "ss-u", 0, 0, 0⟩ := by
  decide

/-! ## Claim C2 — flow clearing on textual input -/

/-- Claim C2, counterexample: an actor awaiting a limit value who sends
malformed input (the `float(...)` parse raises) is still awaiting a limit
value afterwards — the handler `return`s from its `except ValueError`
branch before `del user_states[user_id]` — refuting "processing the next
textual input leaves that actor in the Idle state regardless of the
input's content". -/
theorem c2_malformed_input_keeps_awaiting_state :
    (KeyManager.process_limit_input
        (some ⟨.waiting_for_limit 7, 1, 2⟩) none ⟨true, .ok none⟩).1
      ≠ none := by
  decide

/-- Claim C2 (amended): in the limit flow the actor's pending entry is
cleared exactly when the input parses as a finite positive number whose
product with `10^9` stays below the binary64 overflow boundary (whether
or not the remote set then succeeds).  Malformed, non-positive, `-inf`
and `NaN` input is turned into a caught `ValueError` and leaves the
actor in the same Awaiting state; `+inf` or an overflowing positive
value kills the handler with an uncaught `OverflowError` from
`int(inf)`, also leaving the state in place.  In the date flow no
textual input clears the pending entry: malformed and past dates return
early with the state intact, and a valid future date raises
`AttributeError` (the missing `Database.update_paid_until`) before the
deletion of the state runs. -/
theorem c2_flow_clearing_amended (chatId messageId keyId : Nat)
    (input : Option PyFloat) (env : OutlineAPI.SetLimitEnv) :
    ((KeyManager.process_limit_input
        (some ⟨.waiting_for_limit keyId, chatId, messageId⟩) input env).1 = none
      ↔ ∃ g : Rat, input = some (.finite g) ∧ 0 < g ∧
          g * 1000000000 < floatOverflowThreshold) ∧
    ∀ (dinput : Option (Int × Int × Int)) (now : Int) (db : Db),
      (KeyManager.process_date_input
          (some ⟨.waiting_for_date keyId, chatId, messageId⟩) dinput now db).1
        = some ⟨.waiting_for_date keyId, chatId, messageId⟩ := by
  constructor
  · rcases input with _ | (_ | _ | _ | g)
    · simp [KeyManager.process_limit_input]
    · simp [KeyManager.process_limit_input]
    · simp [KeyManager.process_limit_input]
    · simp [KeyManager.process_limit_input]
    · simp only [KeyManager.process_limit_input]
      by_cases hg : g ≤ 0
      · rw [if_pos hg]
        refine iff_of_false (by simp) ?_
        rintro ⟨g', hg', hpos, -⟩
        rw [Option.some.injEq, PyFloat.finite.injEq] at hg'
        exact absurd hpos (hg' ▸ not_lt.mpr hg)
      · rw [if_neg hg]
        by_cases hov : floatOverflowThreshold ≤ g * 1000000000
        · rw [if_pos hov]
          refine iff_of_false (by simp) ?_
          rintro ⟨g', hg', -, hlt⟩
          rw [Option.some.injEq, PyFloat.finite.injEq] at hg'
          exact absurd hlt (hg' ▸ not_lt.mpr hov)
        · rw [if_neg hov]
          refine iff_of_true ?_ ⟨g, rfl, not_le.mp hg, not_le.mp hov⟩
          split <;> rfl
  · intro dinput now db
    rcases dinput with _ | ⟨day, mon, yr⟩
    · rfl
    · simp only [KeyManager.process_date_input]
      split
      · rfl
      · split
        · rfl
        · rw [if_neg (by decide)]

/-- Witness for C2's amended theorem: a well-formed positive limit input
(`2`) clears the pending limit flow; the overflowing input `1e300`
(product `10^309`, past the binary64 boundary) does not clear it; a
malformed date input leaves the pending date flow in place. -/
theorem c2_flow_clearing_amended_witness :
    (KeyManager.process_limit_input (some ⟨.waiting_for_limit 7, 1, 2⟩)
        (some (.finite 2)) ⟨true, .ok (some 2000000000)⟩).1 = none ∧
    ¬ ((KeyManager.process_limit_input (some ⟨.waiting_for_limit 7, 1, 2⟩)
        (some (.finite (10 ^ 300))) ⟨true, .ok none⟩).1 = none) ∧
    (KeyManager.process_date_input (some ⟨.waiting_for_date 7, 1, 2⟩)
        none 0 ⟨[], []⟩).1 = some ⟨.waiting_for_date 7, 1, 2⟩ :=
  ⟨(c2_flow_clearing_amended 1 2 7 (some (.finite 2))
      ⟨true, .ok (some 2000000000)⟩).1.mpr
      ⟨2, rfl, by norm_num, by norm_num [floatOverflowThreshold]⟩,
   fun h => by
     obtain ⟨g, hg, -, hlt⟩ :=
       (c2_flow_clearing_amended 1 2 7 (some (.finite (10 ^ 300)))
         ⟨true, .ok none⟩).1.mp h
     rw [Option.some.injEq, PyFloat.finite.injEq] at hg
     rw [← hg] at hlt
     exact absurd hlt (by norm_num [floatOverflowThreshold]),
   (c2_flow_clearing_amended 1 2 7 (some (.finite 2))
      ⟨true, .ok (some 2000000000)⟩).2 none 0 ⟨[], []⟩⟩

/-! ## Claim C3 — set-expiry flow -/

/-- Claim C3: a well-formed `31.12.2099` (not before the current instant
`1760227200`) should end with the key's `paid_until` equal to the parsed
timestamp, but `process_date_input` calls `db.update_paid_until`, an
attribute `Database` does not define (it defines `update_key_payment`),
so `AttributeError` escapes the handler — its `except` clause only
catches `ValueError` — and the store is unchanged, the pending flow still
in place. -/
theorem c3_set_expiry_attribute_error :
    isValidDate 2099 12 31 = true ∧
    ¬ (dateTimestamp 2099 12 31 < 1760227200) ∧
    Database.databaseMethods.contains ("update_paid_until") = false ∧
    Database.databaseMethods.contains ("update_key_payment") = true ∧
    KeyManager.process_date_input (some ⟨.waiting_for_date 7, 1, 2⟩)
        (some (31, 12, 2099)) 1760227200
        ⟨[⟨1, none, false, false, 0, 0⟩], [⟨7, 1, "home", "ss-u", 0, 0, 0⟩]⟩
      = (some ⟨.waiting_for_date 7, 1, 2⟩,
         ⟨[⟨1, none, false, false, 0, 0⟩], [⟨7, 1, "home", "ss-u", 0, 0, 0⟩]⟩,
         .attributeError) := by
  decide

/-! ## Claim C4 — GB-to-bytes conventions -/

/-- Claim C4, counterexample: the repository's gigabyte-to-bytes
conversion helper `gb_to_bytes` (`utils.py`, cited by the claim) uses the
binary convention — `gb_to_bytes(5)` is `5,368,709,120`, not
`5,000,000,000` — refuting "the decimal convention is applied
consistently at every boundary that accepts a human-entered GB value". -/
theorem c4_gb_to_bytes_binary_convention :
    gb_to_bytes 5 = 5368709120 ∧ (5368709120 : Int) ≠ 5000000000 := by
  constructor
  · norm_num [gb_to_bytes, pyInt]
  · decide

/-- Claim C4 (amended): the one live boundary that accepts a
human-entered GB value — the limit-input handler — converts with the
decimal convention, so input `5` issues a remote request of exactly
`5,000,000,000` bytes; but the helper `gb_to_bytes`, imported by the key
manager though never invoked, uses the binary convention and would give
`5,368,709,120`. -/
theorem c4_limit_boundary_decimal_amended :
    (KeyManager.process_limit_input (some ⟨.waiting_for_limit 7, 1, 2⟩)
        (some (.finite 5)) ⟨true, .ok (some 5000000000)⟩).2
      = .limitSet (.putLimit 5000000000) ∧
    gb_to_bytes 5 = 5368709120 := by
  constructor
  · have h5 : pyInt ((5 : Rat) * 1000000000) = 5000000000 := by
      norm_num [pyInt]
    simp only [KeyManager.process_limit_input]
    rw [if_neg (by norm_num), if_neg (by norm_num [floatOverflowThreshold])]
    simp only [h5]
    rfl
  · norm_num [gb_to_bytes, pyInt]

/-! ## Claim C5 — set_data_limit verification -/

/-- Claim C5, counterexample: when the PUT succeeds but the post-change
verification read raises, `set_data_limit` returns success — the
exception is only logged — refuting "a failure of the post-change read
causes a non-success result". -/
theorem c5_read_failure_returns_success :
    OutlineAPI.set_data_limit 5000000000 ⟨true, .raised⟩
      = (.putLimit 5000000000, true) := by
  decide

/-- Claim C5 (amended): a zero-byte request is issued as a removal of the
cap; after a successful mutation a verification read reporting a cap
different from the requested one, or reporting no cap at all when one was
requested, makes the call return non-success; but a verification read
that itself fails is swallowed and the call returns success. -/
theorem c5_set_data_limit_amended (b : Int) (env : OutlineAPI.SetLimitEnv) :
    ((OutlineAPI.set_data_limit 0 env).1 = OutlineAPI.LimitRequest.deleteLimit) ∧
    (env.requestOk = true → ∀ actual : Int,
      env.readResult = .ok (some actual) → actual ≠ b → 0 < b →
      (OutlineAPI.set_data_limit b env).2 = false) ∧
    (env.requestOk = true → env.readResult = .ok none → 0 < b →
      (OutlineAPI.set_data_limit b env).2 = false) ∧
    (env.requestOk = true → env.readResult = .raised →
      (OutlineAPI.set_data_limit b env).2 = true) := by
  obtain ⟨rok, rres⟩ := env
  refine ⟨?_, ?_, ?_, ?_⟩
  · cases rok <;> rcases rres with _ | (_ | dl) <;>
      simp [OutlineAPI.set_data_limit]
  · intro hok actual hread hne hb
    simp only at hok hread
    subst hok
    subst hread
    simp [OutlineAPI.set_data_limit, hb, not_lt.mpr hb.le, hne]
  · intro hok hread hb
    simp only at hok hread
    subst hok
    subst hread
    simp [OutlineAPI.set_data_limit, hb, not_lt.mpr hb.le]
  · intro hok hread
    simp only at hok hread
    subst hok
    subst hread
    simp [OutlineAPI.set_data_limit]

/-- Witness for C5's amended theorem at concrete inputs: requesting `0`
bytes issues a removal; a verified mismatch (`5` read back after
requesting `7`) yields non-success; a verification read reporting no cap
after requesting `7` yields non-success; a raising verification read
yields success. -/
theorem c5_set_data_limit_amended_witness :
    (OutlineAPI.set_data_limit 0 ⟨true, .ok (some 5)⟩).1
        = OutlineAPI.LimitRequest.deleteLimit ∧
    (OutlineAPI.set_data_limit 7 ⟨true, .ok (some 5)⟩).2 = false ∧
    (OutlineAPI.set_data_limit 7 ⟨true, .ok none⟩).2 = false ∧
    (OutlineAPI.set_data_limit 7 ⟨true, .raised⟩).2 = true :=
  ⟨(c5_set_data_limit_amended 7 ⟨true, .ok (some 5)⟩).1,
   (c5_set_data_limit_amended 7 ⟨true, .ok (some 5)⟩).2.1 rfl 5 rfl
     (by decide) (by decide),
   (c5_set_data_limit_amended 7 ⟨true, .ok none⟩).2.2.1 rfl rfl (by decide),
   (c5_set_data_limit_amended 7 ⟨true, .raised⟩).2.2.2 rfl rfl⟩

/-! ## Claim C8 — creation quota -/

/-- Claim C8, counterexample: a blocked standard-tier actor with `0` keys
— strictly below the tier limit of `1` — is still refused a `Create`
(the blocked check precedes the quota check), refuting "Create is
refused exactly when the owned-key count has reached the tier limit". -/
theorem c8_blocked_actor_refused_under_quota :
    (KeyManager.create_key_callback [] ⟨[⟨1, none, false, true, 0, 0⟩], []⟩
        1 none 1 2).2 ≠ KeyManager.CreateOutcome.promptName ∧
    Database.count_user_keys ⟨[⟨1, none, false, true, 0, 0⟩], []⟩ 1 = 0 ∧
    0 < MAX_KEYS_PER_USER := by
  decide

/-- Claim C8 (amended): for a non-blocked actor, `Create` proceeds to the
name prompt exactly when the owned-key count is below the tier limit
(`MAX_KEYS_PER_ADMIN = 10` for the elevated tier, `MAX_KEYS_PER_USER = 1`
otherwise) — so a standard actor with 1 key is refused and an elevated
actor with 9 keys is allowed a 10th and refused an 11th — while a
blocked actor is always refused, whatever the count. -/
theorem c8_quota_enforcement_amended (adminIds : List Int) (db : Db)
    (userId : Int) (st : Option UserState) (chatId messageId : Nat) :
    (Database.is_user_blocked db userId = false →
      ((KeyManager.create_key_callback adminIds db userId st chatId messageId).2
          = KeyManager.CreateOutcome.promptName
        ↔ Database.count_user_keys db userId <
            (if Database.is_admin adminIds db userId then MAX_KEYS_PER_ADMIN
             else MAX_KEYS_PER_USER))) ∧
    (Database.is_user_blocked db userId = true →
      (KeyManager.create_key_callback adminIds db userId st chatId messageId).2
        = KeyManager.CreateOutcome.blockedRefused) := by
  constructor
  · intro hnb
    unfold KeyManager.create_key_callback
    rw [hnb]
    simp only [Bool.false_eq_true, if_false]
    split
    · split
      · rename_i h
        exact iff_of_false (by simp) (not_lt.mpr h)
      · rename_i h
        exact iff_of_true rfl (not_le.mp h)
    · split
      · rename_i h
        exact iff_of_false (by simp) (not_lt.mpr h)
      · rename_i h
        exact iff_of_true rfl (not_le.mp h)
  · intro hb
    unfold KeyManager.create_key_callback
    rw [hb]
    rfl

/-- Witness for C8's amended theorem: a non-blocked standard actor with
1 key is refused; a non-blocked elevated actor with 9 keys gets the name
prompt; a blocked actor is refused outright. -/
theorem c8_quota_enforcement_amended_witness :
    ¬ ((KeyManager.create_key_callback []
          ⟨[⟨1, none, false, false, 0, 0⟩], [⟨7, 1, "k", "u", 0, 0, 0⟩]⟩
          1 none 1 2).2 = KeyManager.CreateOutcome.promptName) ∧
    (KeyManager.create_key_callback [1]
          ⟨[], (List.range 9).map (fun i => ⟨i, 1, "k", "u", 0, 0, 0⟩)⟩
          1 none 1 2).2 = KeyManager.CreateOutcome.promptName ∧
    (KeyManager.create_key_callback [] ⟨[⟨2, none, false, true, 0, 0⟩], []⟩
          2 none 1 2).2 = KeyManager.CreateOutcome.blockedRefused :=
  ⟨fun h => absurd
      (((c8_quota_enforcement_amended []
          ⟨[⟨1, none, false, false, 0, 0⟩], [⟨7, 1, "k", "u", 0, 0, 0⟩]⟩
          1 none 1 2).1 (by decide)).mp h)
      (by decide),
   ((c8_quota_enforcement_amended [1]
        ⟨[], (List.range 9).map (fun i => ⟨i, 1, "k", "u", 0, 0, 0⟩)⟩
        1 none 1 2).1 (by decide)).mpr (by decide),
   (c8_quota_enforcement_amended []
        ⟨[⟨2, none, false, true, 0, 0⟩], []⟩ 2 none 1 2).2 (by decide)⟩

/-! ## Claim C9 — usage probe order -/

/-- Claim C9: `get_key_data_usage` probes the aggregate-by-key transfer
report, then the legacy aggregate report, then the per-key inline usage
fields, in that fixed order; the first source that yields a value for the
id wins, and the result is `0` (never an exception — the function is
total) when no source yields one: the code agrees with the spec-worded
first-yield composition on every input. -/
theorem c9_usage_probe_order (keyId : Nat) (src : OutlineAPI.UsageSources) :
    OutlineAPI.get_key_data_usage keyId src = specUsageFirstYield keyId src := by
  obtain ⟨tr, me, ki⟩ := src
  simp only [OutlineAPI.get_key_data_usage, specUsageFirstYield]
  rcases tr with _ | m1 <;> rcases me with _ | m2 <;>
    rcases ki with _ | ⟨ub, un⟩
  all_goals try dsimp only [Option.bind]
  all_goals try cases OutlineAPI.lookupUsage m1 keyId
  all_goals try cases OutlineAPI.lookupUsage m2 keyId
  all_goals try cases ub
  all_goals try cases un
  all_goals rfl

/-! ## Claim C10 — admin-list override -/

/-- Claim C10: `is_admin` returns `True` for every identity in the
configured `ADMIN_IDS` list before ever consulting the users table, so
the stored record — absent, or present with any `is_admin` / blocked
flags — cannot downgrade the answer. -/
theorem c10_admin_list_overrides_table (adminIds : List Int) (db : Db)
    (userId : Int) (h : userId ∈ adminIds) :
    Database.is_admin adminIds db userId = true := by
  unfold Database.is_admin
  simp [h]

/-- Witness for C10: the first configured admin id, with a stored record
that is blocked and has the admin flag cleared, is still reported as
admin. -/
theorem c10_admin_list_overrides_table_witness :
    Database.is_admin [123456789, 987654321]
        ⟨[⟨123456789, none, false, true, 0, 0⟩], []⟩ 123456789 = true :=
  c10_admin_list_overrides_table [123456789, 987654321]
    ⟨[⟨123456789, none, false, true, 0, 0⟩], []⟩ 123456789 (by decide)
